import Mathlib

/-!
# TasteStack backend: shallow embedding and verification

A shallow embedding of the TasteStack backend data model and operations,
translated from the Django code in the repository documentation
(DJANGO_PROJECT_GUIDE.md, DJANGO_DEVELOPMENT_GUIDE.md, DJANGO_INTERVIEW_GUIDE.md,
API_REFERENCE.md), together with theorems settling the specification's
testable properties.

The relational store is modelled as lists of records; machine integers as
`Nat`; rational arithmetic (`ℚ`) is used where Python produces exact division.
Fallible endpoints return `Except ErrResponse _` carrying the HTTP status and
error message of the Django `Response`.
-/

namespace TasteStack

/-- A user account (accounts.User): unique id, unique email (login key),
password hash, display name. -/
structure User where
  id : Nat
  email : String
  passwordHash : String
  username : String
deriving Repr, DecidableEq

/-- A recipe record (Item / Recipe model): title, description, ingredient
strings, timing fields, difficulty, owning author. -/
structure Item where
  id : Nat
  title : String
  description : String
  ingredients : List String
  prep_time : Nat
  cook_time : Nat
  difficulty : String
  authorId : Nat
deriving Repr, DecidableEq

/-- A rating record (interactions.Rating): `(user, recipe)` with an integer
score; `unique_together ('user', 'recipe')` is an invariant of the store. -/
structure Rating where
  userId : Nat
  itemId : Nat
  score : Nat
deriving Repr, DecidableEq

/-- A like record (interactions.Like): presence of the `(user, recipe)` pair
is the signal; `unique_together` is an invariant of the store. -/
structure Like where
  userId : Nat
  itemId : Nat
deriving Repr, DecidableEq

/-- A comment record (interactions.Comment): many per `(user, recipe)` pair;
`created_at` drives the `Meta.ordering = ['-created_at']` listing order. -/
structure Comment where
  id : Nat
  userId : Nat
  itemId : Nat
  content : String
  created_at : Nat
deriving Repr, DecidableEq

/-- The relational store: one table per model. -/
structure DB where
  users : List User
  items : List Item
  ratings : List Rating
  likes : List Like
  comments : List Comment
deriving Repr, DecidableEq

/-- The `unique_together ('user', 'recipe')` key match for Rating rows. -/
def ratingMatches (u r : Nat) (x : Rating) : Bool :=
  x.userId == u && x.itemId == r

/-- The `unique_together ('user', 'recipe')` key match for Like rows. -/
def likeMatches (u r : Nat) (x : Like) : Bool :=
  x.userId == u && x.itemId == r

/-- `self.ratings.all()`: the Rating rows whose recipe is `itemId`
(reverse foreign key on `related_name='ratings'`). -/
def ratingsOf (db : DB) (itemId : Nat) : List Rating :=
  db.ratings.filter (fun x => x.itemId == itemId)

/-- Embeds `Item.average_rating` (DJANGO_PROJECT_GUIDE.md):
if any ratings exist, `sum(rating.rating for rating in ratings) / ratings.count()`,
else `0`. Exact division, so the result is rational. -/
def average_rating (db : DB) (itemId : Nat) : ℚ :=
  let rs := ratingsOf db itemId
  if rs = [] then 0
  else ((rs.map fun x => (x.score : ℚ)).sum) / rs.length

/-- The specification's arithmetic mean of a list of scores, for comparison
with the code's `average_rating` (spec §3: "average rating of a recipe =
mean of its Rating.score values (0 if none)"). The empty case yields `0/0 = 0`
in `ℚ`. -/
def specMean (xs : List ℚ) : ℚ := xs.sum / xs.length

/-- `comments.filter(item=itemId)`: the Comment rows of one recipe. -/
def commentsOf (db : DB) (itemId : Nat) : List Comment :=
  db.comments.filter (fun c => c.itemId == itemId)

/-- Embeds the comment listing endpoint: Django applies
`Comment.Meta.ordering = ['-created_at']`, i.e. ORDER BY created_at DESC. -/
def comment_list (db : DB) (itemId : Nat) : List Comment :=
  (commentsOf db itemId).mergeSort (fun a b => b.created_at ≤ a.created_at)

/-- Embeds `ItemSerializer.get_is_liked`: for an authenticated caller,
`Like.objects.filter(user=request.user, item=obj).exists()`; for an
anonymous request, `False`. -/
def get_is_liked (db : DB) (caller : Option Nat) (itemId : Nat) : Bool :=
  match caller with
  | some u => db.likes.any (likeMatches u itemId)
  | none => false

/-- Embeds `ItemSerializer.get_user_rating`: for an authenticated caller,
`Rating.objects.filter(user=request.user, item=obj).first()` and its score,
else `None`; for an anonymous request, `None`. -/
def get_user_rating (db : DB) (caller : Option Nat) (itemId : Nat) : Option Nat :=
  match caller with
  | some u => (db.ratings.find? (ratingMatches u itemId)).map (fun x => x.score)
  | none => none

/-- Embeds the rating upsert (`rate_recipe` via `get_or_create` +
`rating.save()` in DJANGO_INTERVIEW_GUIDE.md, `RatingSerializer.create` via
`update_or_create` in DJANGO_DEVELOPMENT_GUIDE.md): if a Rating row keyed by
`(u, r)` exists, set its score to `s`; otherwise insert a new row. -/
def rateRecipe (db : DB) (u r s : Nat) : DB :=
  if db.ratings.any (ratingMatches u r) then
    { db with ratings := db.ratings.map fun x =>
        if ratingMatches u r x then { x with score := s } else x }
  else
    { db with ratings := ⟨u, r, s⟩ :: db.ratings }

/-- Embeds `like_recipe` (DJANGO_INTERVIEW_GUIDE.md): `get_or_create` on
`(user, recipe)`; when the row already existed (`not created`) the code
deletes it and responds `liked: False`, else it keeps the new row and
responds `liked: True` — a toggle. -/
def like_recipe (db : DB) (u r : Nat) : DB × Bool :=
  if db.likes.any (likeMatches u r) then
    ({ db with likes := db.likes.eraseP (likeMatches u r) }, false)
  else
    ({ db with likes := ⟨u, r⟩ :: db.likes }, true)

/-- Modelled from the spec: the unlike endpoint's implementation is not in the
repository sources (only its route, `POST /recipes/<id>/unlike/ - Unlike a
recipe (deletes Like object)`, and its 204 response shape are declared); per
the spec it is "idempotent removal of the Like record; ... unliking a
non-existent like is a no-op". -/
def unlikeRecipe (db : DB) (u r : Nat) : DB :=
  { db with likes := db.likes.filter (fun x => !(likeMatches u r x)) }

/-- A Django `Response({'error': ...}, status=...)`: the HTTP status code and
the error message. -/
structure ErrResponse where
  status : Nat
  error : String
deriving Repr, DecidableEq

/-- The HTTP status of an endpoint result (200 for a success body). -/
def resultStatus {α : Type} : Except ErrResponse α → Nat
  | .error e => e.status
  | .ok _ => 200

/-- Stand-in for Django's password hasher: deterministic, so
`check_password` compares the stored hash with the hash of the attempt. -/
def hashPw (p : String) : String := "pbkdf2-sha256$" ++ p

/-- Stand-in for `RefreshToken.for_user(user).access_token`. -/
def tokenFor (uid : Nat) : String := "jwt-" ++ toString uid

/-- Embeds `login` (accounts/views.py in DJANGO_PROJECT_GUIDE.md and
DJANGO_DEVELOPMENT_GUIDE.md): missing email or password → 400; unknown
email → 400 "Invalid credentials"; `check_password` failure → 400
"Invalid credentials"; success → the serialized user (id) and a token. -/
def login (db : DB) (email pw : String) : Except ErrResponse (Nat × String) :=
  if email = "" ∨ pw = "" then
    .error ⟨400, "Email and password are required"⟩
  else
    match db.users.find? (fun u => u.email == email) with
    | none => .error ⟨400, "Invalid credentials"⟩
    | some u =>
      if hashPw pw == u.passwordHash then .ok (u.id, tokenFor u.id)
      else .error ⟨400, "Invalid credentials"⟩

/-- `Item.objects.get(pk=itemId)` / `self.get_object()` lookup. -/
def findItem (db : DB) (itemId : Nat) : Option Item :=
  db.items.find? (fun i => i.id == itemId)

/-- Embeds `ItemDetailView.update` (`permission_classes = [AllowAny]`):
`self.get_object()` first (404 when the item does not exist), then the
ownership check `instance.author != request.user` (an anonymous caller is
never equal to the author) → 403, else the update proceeds. -/
def itemDetailUpdate (db : DB) (caller : Option Nat) (itemId : Nat)
    (newTitle newDescription : String) : Except ErrResponse DB :=
  match findItem db itemId with
  | none => .error ⟨404, "Not found"⟩
  | some item =>
    if caller ≠ some item.authorId then
      .error ⟨403, "You do not have permission to edit this item"⟩
    else
      .ok { db with items := db.items.map fun i =>
        if i.id == itemId then { i with title := newTitle, description := newDescription }
        else i }

/-- Embeds `ItemDetailView.destroy` (`permission_classes = [AllowAny]`):
`self.get_object()` first (404), then `instance.author != request.user` →
403, else `super().destroy()` deletes the item and, by `on_delete=CASCADE`,
its ratings, likes and comments. -/
def itemDetailDestroy (db : DB) (caller : Option Nat) (itemId : Nat) :
    Except ErrResponse DB :=
  match findItem db itemId with
  | none => .error ⟨404, "Not found"⟩
  | some item =>
    if caller ≠ some item.authorId then
      .error ⟨403, "You do not have permission to delete this item"⟩
    else
      .ok { db with
        items := db.items.filter (fun i => !(i.id == itemId)),
        ratings := db.ratings.filter (fun x => !(x.itemId == itemId)),
        likes := db.likes.filter (fun x => !(x.itemId == itemId)),
        comments := db.comments.filter (fun c => !(c.itemId == itemId)) }

/-- Embeds `RecipeViewSet.update` (DJANGO_INTERVIEW_GUIDE.md) with
`permission_classes = [IsAuthenticatedOrReadOnly, IsOwnerOrReadOnly]`:
DRF runs `IsAuthenticatedOrReadOnly.has_permission` before the view body, so
an anonymous write gets 401; then `self.get_object()` (404); then
`recipe.author != request.user` raises `PermissionDenied` (403). -/
def recipeViewSetUpdate (db : DB) (caller : Option Nat) (recipeId : Nat)
    (newTitle newDescription : String) : Except ErrResponse DB :=
  match caller with
  | none => .error ⟨401, "Authentication credentials were not provided."⟩
  | some u =>
    match findItem db recipeId with
    | none => .error ⟨404, "Not found"⟩
    | some item =>
      if item.authorId ≠ u then
        .error ⟨403, "You can only edit your own recipes."⟩
      else
        .ok { db with items := db.items.map fun i =>
          if i.id == recipeId then { i with title := newTitle, description := newDescription }
          else i }

/-- Embeds `RecipeViewSet.destroy` (DJANGO_INTERVIEW_GUIDE.md): anonymous
write → 401; missing recipe → 404; non-owner → `PermissionDenied` (403);
owner → cascade delete. -/
def recipeViewSetDestroy (db : DB) (caller : Option Nat) (recipeId : Nat) :
    Except ErrResponse DB :=
  match caller with
  | none => .error ⟨401, "Authentication credentials were not provided."⟩
  | some u =>
    match findItem db recipeId with
    | none => .error ⟨404, "Not found"⟩
    | some item =>
      if item.authorId ≠ u then
        .error ⟨403, "You can only delete your own recipes."⟩
      else
        .ok { db with
          items := db.items.filter (fun i => !(i.id == recipeId)),
          ratings := db.ratings.filter (fun x => !(x.itemId == recipeId)),
          likes := db.likes.filter (fun x => !(x.itemId == recipeId)),
          comments := db.comments.filter (fun c => !(c.itemId == recipeId)) }

/-- Embeds `rate_item` (DJANGO_PROJECT_GUIDE.md): `IsAuthenticated` runs
first (anonymous → 401); then `Item.objects.get(pk=pk)` with
`Item.DoesNotExist` → 404 "Item not found"; then the serializer validates the
score against the 1–5 choices (400 on failure) and saves the upsert. -/
def rate_item (db : DB) (caller : Option Nat) (itemId : Nat) (score : Nat) :
    Except ErrResponse DB :=
  match caller with
  | none => .error ⟨401, "Authentication credentials were not provided."⟩
  | some u =>
    match findItem db itemId with
    | none => .error ⟨404, "Item not found"⟩
    | some _ =>
      if 1 ≤ score ∧ score ≤ 5 then .ok (rateRecipe db u itemId score)
      else .error ⟨400, "Invalid rating"⟩

/-- `needle` occurs as a contiguous run inside `hay`. -/
def isSubList (needle hay : List Char) : Bool :=
  match hay with
  | [] => needle.isEmpty
  | _ :: t => needle.isPrefixOf hay || isSubList needle t

/-- ASCII lower-casing of one character. -/
def lowerChar (c : Char) : Char :=
  if 65 ≤ c.toNat ∧ c.toNat ≤ 90 then Char.ofNat (c.toNat + 32) else c

/-- Django's `__icontains`: case-insensitive substring test. -/
def icontains (hay needle : String) : Bool :=
  isSubList (needle.data.map lowerChar) (hay.data.map lowerChar)

/-- Embeds `ItemListCreateView.get_queryset` (DJANGO_PROJECT_GUIDE.md /
DJANGO_DEVELOPMENT_GUIDE.md): when the `q` parameter is present and truthy,
filter with `Q(title__icontains=q) | Q(description__icontains=q)`; when the
`difficulty` parameter is present and truthy, filter by exact match. -/
def get_queryset (db : DB) (q : Option String) (difficulty : Option String) :
    List Item :=
  let qs := db.items
  let qs := match q with
    | some s => if s.data.isEmpty then qs
                else qs.filter (fun i => icontains i.title s || icontains i.description s)
    | none => qs
  match difficulty with
  | some dv => if dv.data.isEmpty then qs else qs.filter (fun i => i.difficulty == dv)
  | none => qs

/-- Modelled from the spec: the `max_time` filter implementation is not in the
repository sources (API_REFERENCE.md only declares the query parameter); per
the spec it is a "max total time (prep+cook)" bound, keeping the recipes with
`prep_time + cook_time ≤ max_time`. -/
def maxTimeFilter (max_time : Nat) (items : List Item) : List Item :=
  items.filter (fun i => i.prep_time + i.cook_time ≤ max_time)

/-- Updating the score of a Rating row does not change its `(user, recipe)`
key, so the keyed update of `rateRecipe` preserves the number of rows
matching any key. -/
lemma countP_score_update (p : Rating → Bool) (u r s : Nat) (l : List Rating)
    (hp : ∀ x : Rating, p { x with score := s } = p x) :
    (l.map fun x => if ratingMatches u r x then { x with score := s } else x).countP p
      = l.countP p := by
  induction l with
  | nil => rfl
  | cons a t ih =>
    by_cases h : ratingMatches u r a
    · simp [List.countP_cons, h, hp, ih]
    · simp [List.countP_cons, h, ih]

/-- Erasing the first row matching `p` from a list that contains one drops
the `p`-count by exactly one. -/
lemma countP_eraseP_like (p : Like → Bool) (l : List Like) (h : l.any p = true) :
    (l.eraseP p).countP p = l.countP p - 1 := by
  induction l with
  | nil => simp at h
  | cons a t ih =>
    by_cases ha : p a
    · simp [List.eraseP_cons, ha, List.countP_cons]
    · simp only [List.any_cons, ha, Bool.false_or] at h
      simp [List.eraseP_cons, ha, List.countP_cons, ih h]

/-- After `rateRecipe db u r s`, every Rating row keyed by `(u, r)` has
score `s`. -/
lemma rateRecipe_score (db : DB) (u r s : Nat) :
    ∀ x ∈ (rateRecipe db u r s).ratings, ratingMatches u r x → x.score = s := by
  intro x hx hmx
  unfold rateRecipe at hx
  by_cases h : db.ratings.any (ratingMatches u r)
  · simp only [h, if_pos] at hx
    simp only [List.mem_map] at hx
    obtain ⟨y, _, hy⟩ := hx
    by_cases hmy : ratingMatches u r y
    · simp [hmy] at hy
      rw [← hy]
    · simp [hmy] at hy
      rw [← hy] at hmx
      exact absurd hmx hmy
  · simp only [h, if_neg, Bool.not_eq_true] at hx
    simp only [List.mem_cons] at hx
    rcases hx with hx | hx
    · rw [hx]
    · exfalso
      have : db.ratings.any (ratingMatches u r) = true :=
        List.any_eq_true.mpr ⟨x, hx, hmx⟩
      simp [this] at h

/-- The number of `(u, r)` Rating rows after `rateRecipe`: unchanged when a
row already existed (keyed update), one more when the row was inserted. -/
lemma rateRecipe_count (db : DB) (u r s : Nat) :
    (rateRecipe db u r s).ratings.countP (ratingMatches u r)
      = if db.ratings.any (ratingMatches u r)
        then db.ratings.countP (ratingMatches u r)
        else db.ratings.countP (ratingMatches u r) + 1 := by
  unfold rateRecipe
  by_cases h : db.ratings.any (ratingMatches u r)
  · simp only [h, if_pos]
    exact countP_score_update _ u r s _ (fun x => rfl)
  · simp only [h, Bool.false_eq_true, if_neg, not_false_iff]
    have hm : ratingMatches u r (⟨u, r, s⟩ : Rating) = true := by
      simp [ratingMatches]
    simp [List.countP_cons, hm, Nat.add_comm]

/-- Helper: a list with a row matching `p` has positive `p`-count. -/
lemma countP_pos_of_any {α : Type} (p : α → Bool) (l : List α)
    (h : l.any p = true) : 0 < l.countP p := by
  obtain ⟨x, hx, hpx⟩ := List.any_eq_true.mp h
  exact List.countP_pos_iff.mpr ⟨x, hx, hpx⟩

/-- Helper: a list with no row matching `p` has `p`-count zero. -/
lemma countP_zero_of_not_any {α : Type} (p : α → Bool) (l : List α)
    (h : ¬ l.any p = true) : l.countP p = 0 := by
  refine List.countP_eq_zero.mpr ?_
  intro x hx hpx
  exact h (List.any_eq_true.mpr ⟨x, hx, hpx⟩)

/-- C2: starting from a store satisfying the `unique_together` invariant for
the pair `(u, r)` (at most one Rating row), rating recipe `r` as user `u`
with score `s1` and then `s2` leaves exactly one Rating row for `(u, r)`,
and that row's score is `s2`. -/
theorem rate_twice_upsert (db : DB) (u r s1 s2 : Nat)
    (h : db.ratings.countP (ratingMatches u r) ≤ 1) :
    ((rateRecipe (rateRecipe db u r s1) u r s2).ratings.countP (ratingMatches u r) = 1)
    ∧ (∀ x ∈ (rateRecipe (rateRecipe db u r s1) u r s2).ratings,
        ratingMatches u r x → x.score = s2) := by
  refine ⟨?_, rateRecipe_score _ u r s2⟩
  have h1 : (rateRecipe db u r s1).ratings.countP (ratingMatches u r) = 1 := by
    rw [rateRecipe_count]
    by_cases ha : db.ratings.any (ratingMatches u r)
    · simp only [ha, if_pos]
      exact Nat.le_antisymm h (countP_pos_of_any _ _ ha)
    · simp only [ha, Bool.false_eq_true, if_neg, not_false_iff]
      rw [countP_zero_of_not_any _ _ ha]
  rw [rateRecipe_count]
  have ha2 : (rateRecipe db u r s1).ratings.any (ratingMatches u r) = true := by
    by_contra hc
    rw [countP_zero_of_not_any _ _ hc] at h1
    exact absurd h1 (by decide)
  simp only [ha2, if_pos]
  exact h1

/-- Witness for C2: the theorem applied to a concrete store (user 7 rates
recipe 1 with score 2 and then 5). -/
theorem rate_twice_upsert_witness :
    ((rateRecipe (rateRecipe ⟨[], [], [], [], []⟩ 7 1 2) 7 1 5).ratings.countP
        (ratingMatches 7 1) = 1)
    ∧ (∀ x ∈ (rateRecipe (rateRecipe ⟨[], [], [], [], []⟩ 7 1 2) 7 1 5).ratings,
        ratingMatches 7 1 x → x.score = 5) :=
  rate_twice_upsert ⟨[], [], [], [], []⟩ 7 1 2 5 (by decide)

/-- C3 counterexample: in a store whose Like table holds exactly the row
`(user 1, recipe 2)`, calling `like_recipe 1 2` does not leave exactly one
Like row for the pair — it deletes the row (the response is
`liked: False`): the code is a toggle, not an idempotent no-op. -/
theorem like_again_deletes_row :
    ((like_recipe ⟨[], [], [], [⟨1, 2⟩], []⟩ 1 2).1.likes.countP (likeMatches 1 2) = 0)
    ∧ ((like_recipe ⟨[], [], [], [⟨1, 2⟩], []⟩ 1 2).2 = false)
    ∧ ¬ ((like_recipe ⟨[], [], [], [⟨1, 2⟩], []⟩ 1 2).1.likes.countP (likeMatches 1 2) = 1) := by
  refine ⟨by decide, by decide, by decide⟩

/-- C3 (amended): under the `unique_together` invariant for `(u, r)`,
`like_recipe` toggles: when the Like row exists the call removes it
(responding `liked: False`, not an error), leaving zero rows for the pair;
when absent it creates exactly one row (responding `liked: True`); and
`unlikeRecipe` when no Like row exists is a no-op. -/
theorem like_toggle_unlike_noop (db : DB) (u r : Nat)
    (h : db.likes.countP (likeMatches u r) ≤ 1) :
    (db.likes.any (likeMatches u r) = true →
      (like_recipe db u r).1.likes.countP (likeMatches u r) = 0
      ∧ (like_recipe db u r).2 = false)
    ∧ (db.likes.any (likeMatches u r) = false →
      (like_recipe db u r).1.likes.countP (likeMatches u r) = 1
      ∧ (like_recipe db u r).2 = true)
    ∧ (db.likes.any (likeMatches u r) = false → unlikeRecipe db u r = db) := by
  refine ⟨fun ha => ?_, fun ha => ?_, fun ha => ?_⟩
  · unfold like_recipe
    simp only [ha, if_pos]
    refine ⟨?_, trivial⟩
    rw [countP_eraseP_like _ _ ha]
    have hpos := countP_pos_of_any _ _ ha
    omega
  · unfold like_recipe
    simp only [ha, Bool.false_eq_true, if_neg, not_false_iff]
    have hz : db.likes.countP (likeMatches u r) = 0 :=
      countP_zero_of_not_any _ _ (by simp [ha])
    have hm : likeMatches u r (⟨u, r⟩ : Like) = true := by simp [likeMatches]
    refine ⟨?_, trivial⟩
    simp [List.countP_cons, hm, hz]
  · unfold unlikeRecipe
    have : db.likes.filter (fun x => !(likeMatches u r x)) = db.likes := by
      refine List.filter_eq_self.mpr ?_
      intro x hx
      have : likeMatches u r x = false := by
        by_contra hc
        simp only [Bool.not_eq_false] at hc
        have := List.any_eq_true.mpr ⟨x, hx, hc⟩
        rw [this] at ha
        exact absurd ha (by decide)
      simp [this]
    rw [this]

/-- Witness for C3 (amended): the theorem applied to a concrete store holding
the single Like row `(1, 2)`; the toggle branch removes it. -/
theorem like_toggle_unlike_noop_witness :
    (⟨[], [], [], [⟨1, 2⟩], []⟩ : DB).likes.any (likeMatches 1 2) = true
    ∧ (like_recipe ⟨[], [], [], [⟨1, 2⟩], []⟩ 1 2).1.likes.countP (likeMatches 1 2) = 0 := by
  refine ⟨by decide, ?_⟩
  exact ((like_toggle_unlike_noop ⟨[], [], [], [⟨1, 2⟩], []⟩ 1 2 (by decide)).1 (by decide)).1

/-- C1: for every recipe, the code's `average_rating` equals the arithmetic
mean of the scores of the Rating rows of that recipe, and equals 0 when the
recipe has no ratings. -/
theorem average_rating_eq_mean (db : DB) (r : Nat) :
    average_rating db r = specMean ((ratingsOf db r).map fun x => (x.score : ℚ))
    ∧ (ratingsOf db r = [] → average_rating db r = 0) := by
  constructor
  · by_cases h : ratingsOf db r = []
    · simp [average_rating, specMean, h]
    · simp [average_rating, specMean, h, List.length_map]
  · intro h
    simp [average_rating, h]

/-- Witness for C1: the theorem applied to a concrete store with two ratings
(scores 4 and 5) on recipe 1. -/
theorem average_rating_eq_mean_witness :
    average_rating ⟨[], [], [⟨7, 1, 4⟩, ⟨8, 1, 5⟩], [], []⟩ 1
      = specMean ((ratingsOf ⟨[], [], [⟨7, 1, 4⟩, ⟨8, 1, 5⟩], [], []⟩ 1).map
          fun x => (x.score : ℚ)) :=
  (average_rating_eq_mean ⟨[], [], [⟨7, 1, 4⟩, ⟨8, 1, 5⟩], [], []⟩ 1).1

/-- C9: the comment listing of a recipe is in reverse-chronological order of
creation (pairwise non-increasing `created_at`) and is a permutation of the
stored comments of that recipe. -/
theorem comment_list_newest_first (db : DB) (r : Nat) :
    (comment_list db r).Pairwise (fun a b => b.created_at ≤ a.created_at)
    ∧ (comment_list db r).Perm (commentsOf db r) := by
  constructor
  · have hs := @List.sorted_mergeSort Comment
      (fun a b : Comment => decide (b.created_at ≤ a.created_at))
      (fun a b c hab hbc => by
        simp only [decide_eq_true_iff] at *
        exact le_trans hbc hab)
      (fun a b => by
        simp only [Bool.or_eq_true, decide_eq_true_iff]
        exact Nat.le_total b.created_at a.created_at)
      (commentsOf db r)
    exact hs.imp (fun h => by simpa using h)
  · exact List.mergeSort_perm _ _

/-- C10: for an anonymous (unauthenticated) caller the per-caller serializer
fields are fixed constants — `is_liked` is false and `user_rating` is null —
independent of the Like and Rating rows stored for the recipe. -/
theorem anonymous_per_caller_fields (db : DB) (r : Nat) :
    get_is_liked db none r = false ∧ get_user_rating db none r = none :=
  ⟨rfl, rfl⟩

/-- C4 counterexample: under `ItemDetailView` (`permission_classes =
[AllowAny]`) an anonymous caller updating an existing recipe receives the 403
permission response — not 401 — because the anonymous user simply fails the
`instance.author != request.user` comparison. -/
theorem anonymous_update_gets_403_not_401 :
    itemDetailUpdate ⟨[], [⟨1, "Pasta", "Tasty", [], 10, 20, "Easy", 10⟩], [], [], []⟩
        none 1 "t" "d"
      = .error ⟨403, "You do not have permission to edit this item"⟩
    ∧ resultStatus (itemDetailUpdate ⟨[], [⟨1, "Pasta", "Tasty", [], 10, 20, "Easy", 10⟩], [], [], []⟩
        none 1 "t" "d") ≠ 401 :=
  ⟨rfl, by decide⟩

/-- C4 (amended): only the owner may update or delete a recipe; any other
authenticated caller receives 403 under both implementations. An anonymous
caller receives 401 under `RecipeViewSet` (`IsAuthenticatedOrReadOnly`), but
under `ItemDetailView` (`AllowAny`) an anonymous caller receives 403, not
401. The owner's calls succeed. -/
theorem update_delete_owner_only (db : DB) (item : Item) (u : Nat)
    (t d : String) (hfind : findItem db item.id = some item) :
    (∀ c : Option Nat, c ≠ some item.authorId →
      itemDetailUpdate db c item.id t d
        = .error ⟨403, "You do not have permission to edit this item"⟩
      ∧ itemDetailDestroy db c item.id
        = .error ⟨403, "You do not have permission to delete this item"⟩)
    ∧ (recipeViewSetUpdate db none item.id t d
        = .error ⟨401, "Authentication credentials were not provided."⟩
      ∧ recipeViewSetDestroy db none item.id
        = .error ⟨401, "Authentication credentials were not provided."⟩)
    ∧ (u ≠ item.authorId →
      recipeViewSetUpdate db (some u) item.id t d
        = .error ⟨403, "You can only edit your own recipes."⟩
      ∧ recipeViewSetDestroy db (some u) item.id
        = .error ⟨403, "You can only delete your own recipes."⟩)
    ∧ resultStatus (itemDetailUpdate db (some item.authorId) item.id t d) = 200
    ∧ resultStatus (itemDetailDestroy db (some item.authorId) item.id) = 200
    ∧ resultStatus (recipeViewSetUpdate db (some item.authorId) item.id t d) = 200
    ∧ resultStatus (recipeViewSetDestroy db (some item.authorId) item.id) = 200 := by
  refine ⟨fun c hc => ⟨?_, ?_⟩, ⟨rfl, rfl⟩, fun hu => ⟨?_, ?_⟩, ?_, ?_, ?_, ?_⟩
  · simp [itemDetailUpdate, hfind, hc]
  · simp [itemDetailDestroy, hfind, hc]
  · simp [recipeViewSetUpdate, hfind, Ne.symm hu]
  · simp [recipeViewSetDestroy, hfind, Ne.symm hu]
  · simp [resultStatus, itemDetailUpdate, hfind]
  · simp [resultStatus, itemDetailDestroy, hfind]
  · simp [resultStatus, recipeViewSetUpdate, hfind]
  · simp [resultStatus, recipeViewSetDestroy, hfind]

/-- Witness for C4 (amended): in a concrete store, authenticated non-owner 20
updating recipe 1 (owned by user 10) receives the 403 response. -/
theorem update_delete_owner_only_witness :
    itemDetailUpdate ⟨[], [⟨1, "Pasta", "Tasty", [], 10, 20, "Easy", 10⟩], [], [], []⟩
        (some 20) 1 "t" "d"
      = .error ⟨403, "You do not have permission to edit this item"⟩ :=
  ((update_delete_owner_only
      ⟨[], [⟨1, "Pasta", "Tasty", [], 10, 20, "Easy", 10⟩], [], [], []⟩
      ⟨1, "Pasta", "Tasty", [], 10, 20, "Easy", 10⟩ 20 "t" "d" rfl).1
    (some 20) (by decide)).1

/-- C5 counterexample: against a store with no account for the email, login
returns the 400 "Invalid credentials" response, not a 401. -/
theorem login_unknown_email_400 :
    login ⟨[], [], [], [], []⟩ "a@b.com" "pw" = .error ⟨400, "Invalid credentials"⟩
    ∧ resultStatus (login ⟨[], [], [], [], []⟩ "a@b.com" "pw") ≠ 401 :=
  ⟨rfl, by decide⟩

/-- C5 (amended): for a request carrying both fields, login fails with the
400 "Invalid credentials" response whenever the email is unknown or the
password hash does not match; on success it returns the user's id and a
session token. -/
theorem login_behavior (db : DB) (email pw : String)
    (hne : ¬(email = "" ∨ pw = "")) :
    (db.users.find? (fun u => u.email == email) = none →
      login db email pw = .error ⟨400, "Invalid credentials"⟩)
    ∧ (∀ u : User, db.users.find? (fun u2 => u2.email == email) = some u →
      (hashPw pw ≠ u.passwordHash →
        login db email pw = .error ⟨400, "Invalid credentials"⟩)
      ∧ (hashPw pw = u.passwordHash →
        login db email pw = .ok (u.id, tokenFor u.id))) := by
  refine ⟨fun hnone => ?_, fun u hu => ⟨fun hmiss => ?_, fun hmatch => ?_⟩⟩
  · simp [login, hne, hnone]
  · simp [login, hne, hu, hmiss]
  · simp [login, hne, hu, hmatch]

/-- Witness for C5 (amended): a concrete store with one account; logging in
with the matching password succeeds and returns the account id and a token. -/
theorem login_behavior_witness :
    login ⟨[⟨1, "a@b.com", hashPw "secretpw", "al"⟩], [], [], [], []⟩ "a@b.com" "secretpw"
      = .ok (1, tokenFor 1) :=
  (((login_behavior ⟨[⟨1, "a@b.com", hashPw "secretpw", "al"⟩], [], [], [], []⟩
      "a@b.com" "secretpw" (by simp)).2
    ⟨1, "a@b.com", hashPw "secretpw", "al"⟩ rfl).2) rfl

/-- C6 counterexample: `rate_item` with an anonymous caller and a missing
recipe fails with 401 (the `IsAuthenticated` gate runs before the existence
lookup), not with 404 as the claim requires for every caller. -/
theorem rate_item_anonymous_missing_401 :
    rate_item ⟨[], [], [], [], []⟩ none 99 5
      = .error ⟨401, "Authentication credentials were not provided."⟩
    ∧ resultStatus (rate_item ⟨[], [], [], [], []⟩ none 99 5) ≠ 404 :=
  ⟨rfl, by decide⟩

/-- C6 (amended): a missing target never yields the 403 permission response:
an authenticated caller gets 404 from `rate_item` and from both
update/destroy implementations, and `ItemDetailView` (`AllowAny`) yields 404
even for an anonymous caller; but `rate_item`, requiring authentication,
answers an anonymous caller with 401 before the existence check. -/
theorem missing_record_not_permission (db : DB) (itemId u s : Nat)
    (t d : String) (hmiss : findItem db itemId = none) :
    rate_item db (some u) itemId s = .error ⟨404, "Item not found"⟩
    ∧ (∀ c : Option Nat, itemDetailUpdate db c itemId t d = .error ⟨404, "Not found"⟩)
    ∧ (∀ c : Option Nat, itemDetailDestroy db c itemId = .error ⟨404, "Not found"⟩)
    ∧ recipeViewSetUpdate db (some u) itemId t d = .error ⟨404, "Not found"⟩
    ∧ recipeViewSetDestroy db (some u) itemId = .error ⟨404, "Not found"⟩
    ∧ rate_item db none itemId s
        = .error ⟨401, "Authentication credentials were not provided."⟩
    ∧ resultStatus (rate_item db none itemId s) ≠ 403 := by
  refine ⟨?_, fun c => ?_, fun c => ?_, ?_, ?_, rfl, by simp [rate_item, resultStatus]⟩
  · simp [rate_item, hmiss]
  · simp [itemDetailUpdate, hmiss]
  · simp [itemDetailDestroy, hmiss]
  · simp [recipeViewSetUpdate, hmiss]
  · simp [recipeViewSetDestroy, hmiss]

/-- Witness for C6 (amended): against the empty store, authenticated user 7
rating missing recipe 99 receives the 404 response. -/
theorem missing_record_not_permission_witness :
    rate_item ⟨[], [], [], [], []⟩ (some 7) 99 5 = .error ⟨404, "Item not found"⟩ :=
  (missing_record_not_permission ⟨[], [], [], [], []⟩ 99 7 5 "t" "d" rfl).1

/-- C7 counterexample: a store holds one recipe whose ingredient list
contains "flour" (so the query is a case-insensitive substring of an
ingredient) while title and description do not; listing with q = "flour"
returns the empty list — the code searches only title and description. -/
theorem search_ignores_ingredients :
    ((⟨1, "Chocolate Cake", "Delicious", ["flour", "sugar"], 10, 20, "Easy", 7⟩ : Item)
        ∈ (⟨[], [⟨1, "Chocolate Cake", "Delicious", ["flour", "sugar"], 10, 20, "Easy", 7⟩],
            [], [], []⟩ : DB).items)
    ∧ (["flour", "sugar"].any fun ing => icontains ing "flour") = true
    ∧ get_queryset ⟨[], [⟨1, "Chocolate Cake", "Delicious", ["flour", "sugar"], 10, 20, "Easy", 7⟩],
        [], [], []⟩ (some "flour") none = [] := by
  refine ⟨by decide, by decide, by decide⟩

/-- C7 (amended): for a non-empty query q, the listing returns exactly the
recipes for which q is a case-insensitive substring of the title or of the
description; ingredient strings are not searched. -/
theorem listRecipes_query_filter (db : DB) (s : String) (i : Item)
    (hs : s.data.isEmpty = false) :
    i ∈ get_queryset db (some s) none ↔
      i ∈ db.items ∧ (icontains i.title s || icontains i.description s) = true := by
  simp [get_queryset, hs, List.mem_filter]

/-- Witness for C7 (amended): the recipe titled "Pasta Carbonara" is returned
for the query "pasta". -/
theorem listRecipes_query_filter_witness :
    (⟨1, "Pasta Carbonara", "Creamy", [], 10, 20, "Easy", 7⟩ : Item)
      ∈ get_queryset ⟨[], [⟨1, "Pasta Carbonara", "Creamy", [], 10, 20, "Easy", 7⟩],
          [], [], []⟩ (some "pasta") none :=
  (listRecipes_query_filter
      ⟨[], [⟨1, "Pasta Carbonara", "Creamy", [], 10, 20, "Easy", 7⟩], [], [], []⟩
      "pasta" ⟨1, "Pasta Carbonara", "Creamy", [], 10, 20, "Easy", 7⟩ rfl).mpr
    ⟨by decide, by decide⟩

/-- C8: the max_time filter bounds the total `prep_time + cook_time`: a
recipe is kept exactly when the total is at most the bound, and in particular
a recipe with `prep_time = 10` and `cook_time = 20` is excluded at
`max_time = 25` and included at `max_time = 30`. -/
theorem max_time_bounds_total (db : DB) (m : Nat) (i : Item) :
    (i ∈ maxTimeFilter m db.items ↔
      i ∈ db.items ∧ i.prep_time + i.cook_time ≤ m)
    ∧ (i.prep_time = 10 → i.cook_time = 20 → i ∈ db.items →
      i ∉ maxTimeFilter 25 db.items ∧ i ∈ maxTimeFilter 30 db.items) := by
  constructor
  · simp [maxTimeFilter, List.mem_filter]
  · intro hp hc hi
    constructor
    · intro hmem
      have h2 := (List.mem_filter.mp hmem).2
      rw [hp, hc] at h2
      exact absurd h2 (by decide)
    · exact List.mem_filter.mpr ⟨hi, by rw [hp, hc]; decide⟩

/-- Witness for C8: the "Pasta" recipe with `prep_time = 10`,
`cook_time = 20` is excluded by `max_time = 25` and included by
`max_time = 30`. -/
theorem max_time_bounds_total_witness :
    (⟨1, "Pasta", "Tasty", [], 10, 20, "Easy", 7⟩ : Item)
        ∉ maxTimeFilter 25 [⟨1, "Pasta", "Tasty", [], 10, 20, "Easy", 7⟩]
    ∧ (⟨1, "Pasta", "Tasty", [], 10, 20, "Easy", 7⟩ : Item)
        ∈ maxTimeFilter 30 [⟨1, "Pasta", "Tasty", [], 10, 20, "Easy", 7⟩] :=
  (max_time_bounds_total
      ⟨[], [⟨1, "Pasta", "Tasty", [], 10, 20, "Easy", 7⟩], [], [], []⟩ 25
      ⟨1, "Pasta", "Tasty", [], 10, 20, "Easy", 7⟩).2 rfl rfl (by decide)

end TasteStack
